import Mathlib

/-!
Shallow embedding of the OmniGuard conversation-moderation repository.

Embedded source files:
* `src/components/chat/user_input.py` — `process_user_message`,
  `handle_raw_response`, `handle_omniguard_check`;
* `src/0_Overview.py` — the human-verification percentage computed in
  `render_dataset_stats`.

External collaborators (`omniguard_check`, `fetch_assistant_response`,
`process_omniguard_result`, `generate_conversation_id`,
`update_conversation_context`) are modelled as explicit inputs: a
collaborator call that may raise is an `Except String _` value carrying
either the returned value or the exception's message string `str(ex)`.
User-visible Streamlit output and collaborator invocations are recorded
in an explicit event trace.
-/

/-- A chat message dict `{"role": ..., "content": ...}` as appended to
`session_state["messages"]`. -/
structure Message where
  role : String
  content : String
deriving DecidableEq, Repr

/-- The Streamlit `session_state` keys read or written by
`src/components/chat/user_input.py`. -/
structure SessionState where
  turn_number : Int
  conversation_id : String
  messages : List Message
  show_unfiltered_response : Bool
  raw_assistant_response : Option String
deriving DecidableEq, Repr

/-- Python-dict-like values: enough structure to express the OmniGuard
response payloads (nested string-keyed dicts with string leaves). -/
inductive PyVal where
  | vStr : String → PyVal
  | vDict : List (String × PyVal) → PyVal
deriving Repr

/-- Key lookup on a `PyVal`: `v["k"]` when `v` is a dict, else nothing. -/
def PyVal.get : PyVal → String → Option PyVal
  | .vStr _, _ => none
  | .vDict entries, k => List.lookup k entries

/-- The `response.action` field of an OmniGuard response payload. -/
def response_action (v : PyVal) : Option String :=
  match (v.get "response").bind (fun r => r.get "action") with
  | some (.vStr s) => some s
  | _ => none

/-- The rejection text of an OmniGuard response payload: the
`response.UserInputRejection` field, else `response.AssistantOutputRejection`
(the spec's `rejectionText`, keyed by the matching action). -/
def rejection_text (v : PyVal) : Option String :=
  match (v.get "response").bind (fun r => r.get "UserInputRejection") with
  | some (.vStr s) => some s
  | _ =>
    match (v.get "response").bind (fun r => r.get "AssistantOutputRejection") with
    | some (.vStr s) => some s
    | _ => none

/-- The fail-closed fallback decision built in `handle_omniguard_check`
when `omniguard_check()` raises. -/
def fallback_omniguard_response : PyVal :=
  .vDict [("response", .vDict
    [("action", .vStr "UserInputRejection"),
     ("UserInputRejection", .vStr "Safety system unavailable - please try again")])]

/-- Observable events of one `process_user_message` run, in order:
Streamlit renderings and collaborator invocations. -/
inductive Event where
  /-- `st.markdown(user_input)` inside `st.chat_message("user")`. -/
  | userMarkdown : String → Event
  /-- `st.error(msg)`. -/
  | errorBox : String → Event
  /-- invocation `fetch_assistant_response(input, skip_omniguard)`. -/
  | fetchAssistant : (input : String) → (skip_omniguard : Bool) → Event
  /-- invocation `process_omniguard_result(response, user_input, context)`:
  the point where the resolved decision is handed to the action resolver. -/
  | processResult : (user_input : String) → (context : String) → Event
deriving DecidableEq, Repr, Inhabited

/-- Whether an event is an invocation of `fetch_assistant_response`. -/
def Event.isFetchCall : Event → Bool
  | .fetchAssistant _ _ => true
  | _ => false

/-- Whether an event is the hand-off of a resolved decision to
`process_omniguard_result`. -/
def Event.isDecisionResult : Event → Bool
  | .processResult _ _ => true
  | _ => false

/-- Python `str.strip` whitespace test, CPython's full set: tab through
carriage return (U+0009-U+000D), space, the file/group/record/unit
separators U+001C-U+001F, next line U+0085, no-break space U+00A0, ogham
space mark U+1680, the typographic spaces U+2000-U+200A, line separator
U+2028, paragraph separator U+2029, narrow no-break space U+202F, medium
mathematical space U+205F, and ideographic space U+3000. -/
def is_py_space (c : Char) : Bool :=
  (9 ≤ c.toNat && c.toNat ≤ 13) || c.toNat == 32 ||
    (28 ≤ c.toNat && c.toNat ≤ 31) || c.toNat == 0x85 || c.toNat == 0xa0 ||
    c.toNat == 0x1680 || (0x2000 ≤ c.toNat && c.toNat ≤ 0x200a) ||
    c.toNat == 0x2028 || c.toNat == 0x2029 || c.toNat == 0x202f ||
    c.toNat == 0x205f || c.toNat == 0x3000

/-- Python `str.strip()`: drop leading and trailing whitespace. -/
def py_strip (s : String) : String :=
  String.mk (((s.data.dropWhile is_py_space).reverse.dropWhile is_py_space).reverse)

/-- Embedding of `handle_raw_response(user_input, session_state)`.
`fetch` is the outcome of the collaborator call
`fetch_assistant_response(user_input, skip_omniguard=True)`.
Returns the updated session state and the emitted events. -/
def handle_raw_response (user_input : String) (session_state : SessionState)
    (fetch : Except String String) : SessionState × List Event :=
  if session_state.show_unfiltered_response then
    match fetch with
    | .ok r =>
        ({ session_state with raw_assistant_response := some r },
         [.fetchAssistant user_input true])
    | .error ex =>
        ({ session_state with
            raw_assistant_response := some "Error: Could not fetch raw response" },
         [.fetchAssistant user_input true,
          .errorBox ("Error fetching raw response: " ++ ex)])
  else (session_state, [])

/-- Result of `handle_omniguard_check`: the decision payload and context
string passed to `process_omniguard_result`, plus the emitted events. -/
structure OmniguardCheckResult where
  resolved : PyVal
  context : String
  events : List Event

/-- Embedding of `handle_omniguard_check(user_input, session_state)`.
`omniguard_check` is the outcome of the collaborator call
`omniguard_check()`; on exception the fail-closed fallback payload is used
and `st.error` shows the exception's message. -/
def handle_omniguard_check (user_input : String) (session_state : SessionState)
    (omniguard_check : Except String PyVal) : OmniguardCheckResult :=
  let (omniguard_response, errEvents) :=
    match omniguard_check with
    | .ok r => (r, ([] : List Event))
    | .error ex =>
        (fallback_omniguard_response,
         [Event.errorBox ("Error calling OmniGuard: " ++ ex)])
  let context :=
    match session_state.messages.getLast? with
    | some m => m.role ++ ": " ++ m.content
    | none => ""
  { resolved := omniguard_response
    context := context
    events := errEvents ++ [Event.processResult user_input context] }

/-- Python values given to `process_user_message`: a `str`, or any
non-string value (rejected by the `isinstance` check). -/
inductive PyInput where
  | pyStr : String → PyInput
  | nonString : PyInput
deriving Repr

/-- Result of `process_user_message`: final session state, the decision
payload handed to `process_omniguard_result` (none when processing was
skipped), and the emitted events. -/
structure ProcessResult where
  state : SessionState
  resolved : Option PyVal
  events : List Event

/-- Embedding of `process_user_message(user_input, session_state,
generate_conversation_id, update_conversation_context)`. The injected
`generate_conversation_id` is a function of the turn number;
`update_conversation_context()` only refreshes the separate
conversation-context key, which is not among the modelled fields. -/
def process_user_message (user_input : PyInput) (session_state : SessionState)
    (generate_conversation_id : Int → String)
    (fetch : Except String String)
    (omniguard_check : Except String PyVal) : ProcessResult :=
  match user_input with
  | .nonString => ⟨session_state, none, []⟩
  | .pyStr raw =>
    if raw = "" then ⟨session_state, none, []⟩
    else
      let ui := py_strip raw
      let s1 := { session_state with turn_number := session_state.turn_number + 1 }
      let s2 := { s1 with conversation_id := generate_conversation_id s1.turn_number }
      let s3 := { s2 with messages := s2.messages ++ [⟨"user", ui⟩] }
      let fr := handle_raw_response ui s3 fetch
      let og := handle_omniguard_check ui fr.1 omniguard_check
      ⟨fr.1, some og.resolved, Event.userMarkdown ui :: (fr.2 ++ og.events)⟩

/-- The dataset-statistics fields used by the percentage computation in
`render_dataset_stats`. -/
structure DatasetStats where
  needed_human_verification : Int
  total_sets : Int
deriving DecidableEq, Repr

/-- The human-verification percentage computed in `render_dataset_stats`:
`(stats['needed_human_verification'] / stats['total_sets'] * 100) if
stats['total_sets'] > 0 else 0`. -/
def verification_percentage (stats : DatasetStats) : ℚ :=
  if stats.total_sets > 0 then
    (stats.needed_human_verification : ℚ) / (stats.total_sets : ℚ) * 100
  else 0

/-- A concrete session state used by witnesses: fresh conversation with
the unfiltered-response feature enabled. -/
def sample_state : SessionState :=
  { turn_number := 0
    conversation_id := "0"
    messages := []
    show_unfiltered_response := true
    raw_assistant_response := none }

/-- A concrete well-formed collaborator payload used by witnesses. -/
def sample_og : PyVal :=
  .vDict [("response", .vDict [("action", .vStr "allow")])]

/-- The spec's invariant on decision payloads: the rejection text is
present and non-empty iff the action is not `allow`. -/
def decision_invariant (v : PyVal) : Prop :=
  (response_action v ≠ some "allow") ↔ ∃ t, rejection_text v = some t ∧ t ≠ ""

/-- Frame of `handle_raw_response` on the session state: every modelled
field other than `raw_assistant_response` is left unchanged. -/
theorem hrr_frame (ui : String) (s : SessionState) (fetch : Except String String) :
    (handle_raw_response ui s fetch).1.messages = s.messages ∧
    (handle_raw_response ui s fetch).1.turn_number = s.turn_number ∧
    (handle_raw_response ui s fetch).1.conversation_id = s.conversation_id ∧
    (handle_raw_response ui s fetch).1.show_unfiltered_response
      = s.show_unfiltered_response := by
  cases hc : s.show_unfiltered_response <;> cases fetch <;>
    simp [handle_raw_response, hc]

/-- C1: when `omniguard_check()` raises, `handle_omniguard_check` resolves
to the fail-closed fallback payload: a `UserInputRejection` carrying the
generic safety-system-unavailable rejection text, never `allow`. -/
theorem omniguard_fail_closed_rejection (ui : String) (s : SessionState) (ex : String) :
    (handle_omniguard_check ui s (.error ex)).resolved = fallback_omniguard_response ∧
    response_action (handle_omniguard_check ui s (.error ex)).resolved
      = some "UserInputRejection" ∧
    response_action (handle_omniguard_check ui s (.error ex)).resolved ≠ some "allow" ∧
    rejection_text (handle_omniguard_check ui s (.error ex)).resolved
      = some "Safety system unavailable - please try again" := by
  refine ⟨rfl, rfl, ?_, rfl⟩
  show (some "UserInputRejection" : Option String) ≠ some "allow"
  decide

/-- C5: on the empty string or a non-string input, `process_user_message`
is a no-op: the session state is unchanged (no turn appended, turn number
and conversation id untouched), no decision is produced, nothing is shown. -/
theorem empty_or_nonstring_noop (s : SessionState) (gen : Int → String)
    (fetch : Except String String) (og : Except String PyVal) :
    (process_user_message (.pyStr "") s gen fetch og).state = s ∧
    (process_user_message (.pyStr "") s gen fetch og).resolved = none ∧
    (process_user_message (.pyStr "") s gen fetch og).events = [] ∧
    (process_user_message .nonString s gen fetch og).state = s ∧
    (process_user_message .nonString s gen fetch og).resolved = none ∧
    (process_user_message .nonString s gen fetch og).events = [] :=
  ⟨rfl, rfl, rfl, rfl, rfl, rfl⟩

/-- C6: the only decision payload constructed by the code under `src/` —
the fail-closed fallback of `handle_omniguard_check` — satisfies the
invariant: rejection text present and non-empty iff action is not `allow`. -/
theorem decision_invariant_constructed (ui : String) (s : SessionState) (ex : String) :
    decision_invariant fallback_omniguard_response ∧
    decision_invariant (handle_omniguard_check ui s (.error ex)).resolved := by
  have h : decision_invariant fallback_omniguard_response :=
    iff_of_true (by decide)
      ⟨"Safety system unavailable - please try again", rfl, by decide⟩
  exact ⟨h, h⟩

/-- C7: `handle_omniguard_check` is deterministic: two runs on identical
session states, identical inputs and an identical collaborator outcome
produce the same resolved decision (and the same context and events). -/
theorem omniguard_check_deterministic (ui₁ ui₂ : String) (s₁ s₂ : SessionState)
    (og₁ og₂ : Except String PyVal)
    (h1 : ui₁ = ui₂) (h2 : s₁ = s₂) (h3 : og₁ = og₂) :
    (handle_omniguard_check ui₁ s₁ og₁).resolved
      = (handle_omniguard_check ui₂ s₂ og₂).resolved ∧
    (handle_omniguard_check ui₁ s₁ og₁).context
      = (handle_omniguard_check ui₂ s₂ og₂).context ∧
    (handle_omniguard_check ui₁ s₁ og₁).events
      = (handle_omniguard_check ui₂ s₂ og₂).events := by
  subst h1; subst h2; subst h3; exact ⟨rfl, rfl, rfl⟩

/-- Witness for C7 at a concrete state and collaborator outcome. -/
theorem omniguard_check_deterministic_witness :
    ("hi" : String) = "hi" ∧ sample_state = sample_state ∧
    (Except.ok sample_og : Except String PyVal) = .ok sample_og ∧
    ((handle_omniguard_check "hi" sample_state (.ok sample_og)).resolved
      = (handle_omniguard_check "hi" sample_state (.ok sample_og)).resolved ∧
    (handle_omniguard_check "hi" sample_state (.ok sample_og)).context
      = (handle_omniguard_check "hi" sample_state (.ok sample_og)).context ∧
    (handle_omniguard_check "hi" sample_state (.ok sample_og)).events
      = (handle_omniguard_check "hi" sample_state (.ok sample_og)).events) :=
  ⟨rfl, rfl, rfl,
   omniguard_check_deterministic "hi" "hi" sample_state sample_state
     (.ok sample_og) (.ok sample_og) rfl rfl rfl⟩

/-- C9: `handle_raw_response` modifies only `raw_assistant_response`:
on every execution (collaborator success or exception) the message list,
turn number, conversation id and feature flag are unchanged. -/
theorem handle_raw_response_frame (ui : String) (s : SessionState)
    (fetch : Except String String) :
    (handle_raw_response ui s fetch).1.messages = s.messages ∧
    (handle_raw_response ui s fetch).1.turn_number = s.turn_number ∧
    (handle_raw_response ui s fetch).1.conversation_id = s.conversation_id ∧
    (handle_raw_response ui s fetch).1.show_unfiltered_response
      = s.show_unfiltered_response :=
  hrr_frame ui s fetch

/-- C10: the human-verification percentage of `render_dataset_stats` never
divides by zero: it is 0 whenever `total_sets ≤ 0`, and the division is
performed only when `total_sets > 0`, where the divisor is non-zero. -/
theorem verification_percentage_no_div_by_zero (stats : DatasetStats) :
    (stats.total_sets ≤ 0 → verification_percentage stats = 0) ∧
    (0 < stats.total_sets →
      (stats.total_sets : ℚ) ≠ 0 ∧
      verification_percentage stats
        = (stats.needed_human_verification : ℚ) / (stats.total_sets : ℚ) * 100) := by
  constructor
  · intro h
    unfold verification_percentage
    rw [if_neg (by omega)]
  · intro h
    refine ⟨by exact_mod_cast h.ne', ?_⟩
    unfold verification_percentage
    rw [if_pos (by omega)]

/-- Witness for C10 at concrete statistics values. -/
theorem verification_percentage_no_div_by_zero_witness :
    verification_percentage ⟨3, 0⟩ = 0 ∧
    (((10 : Int) : ℚ) ≠ 0 ∧
      verification_percentage ⟨3, 10⟩ = ((3 : Int) : ℚ) / ((10 : Int) : ℚ) * 100) :=
  ⟨(verification_percentage_no_div_by_zero ⟨3, 0⟩).1 (by decide),
   (verification_percentage_no_div_by_zero ⟨3, 10⟩).2 (by decide)⟩

/-- Modelled from the spec: `generate_conversation_id` is repository code
outside `src/` (it is injected into `process_user_message` as a callback).
The spec requires the id to be "derived deterministically from turn count
(monotonic, one-to-one with turn number)"; we model it as an explicit
one-to-one encoding of the turn number into a string. -/
def generate_conversation_id (n : Int) : String :=
  String.mk ((if 0 ≤ n then 'p' else 'n') :: List.replicate n.natAbs '*')

/-- The modelled conversation-id generator is one-to-one, as the spec
requires of the real one. -/
theorem generate_conversation_id_injective :
    Function.Injective generate_conversation_id := by
  intro a b h
  unfold generate_conversation_id at h
  have hd : (if 0 ≤ a then 'p' else 'n') :: List.replicate a.natAbs '*'
      = (if 0 ≤ b then 'p' else 'n') :: List.replicate b.natAbs '*' :=
    congrArg String.data h
  have hsign : (if 0 ≤ a then 'p' else 'n') = (if 0 ≤ b then 'p' else 'n') :=
    (List.cons.injEq _ _ _ _ ▸ hd).1
  have hrep : List.replicate a.natAbs '*' = List.replicate b.natAbs '*' :=
    (List.cons.injEq _ _ _ _ ▸ hd).2
  have hlen : a.natAbs = b.natAbs := by
    have := congrArg List.length hrep
    simpa using this
  by_cases ha : 0 ≤ a <;> by_cases hb : 0 ≤ b <;>
    simp [ha, hb] at hsign <;> omega

/-- C4: on a non-empty string input, `process_user_message` increments the
turn number by exactly one (strict increase), appends exactly one turn, and
recomputes the conversation id as the injected generator applied to the new
turn number; with a one-to-one generator, equal ids imply equal prior turn
numbers. -/
theorem turn_increment_and_id_one_to_one
    (raw : String) (s : SessionState) (gen : Int → String)
    (fetch : Except String String) (og : Except String PyVal)
    (h : raw ≠ "") (hgen : Function.Injective gen) :
    (process_user_message (.pyStr raw) s gen fetch og).state.turn_number
      = s.turn_number + 1 ∧
    s.turn_number < (process_user_message (.pyStr raw) s gen fetch og).state.turn_number ∧
    (process_user_message (.pyStr raw) s gen fetch og).state.conversation_id
      = gen (s.turn_number + 1) ∧
    (process_user_message (.pyStr raw) s gen fetch og).state.messages.length
      = s.messages.length + 1 ∧
    (∀ (t : SessionState) (raw2 : String), raw2 ≠ "" →
      (process_user_message (.pyStr raw2) t gen fetch og).state.conversation_id
        = (process_user_message (.pyStr raw) s gen fetch og).state.conversation_id →
      t.turn_number = s.turn_number) := by
  have key : ∀ (u : String) (st : SessionState), u ≠ "" →
      (process_user_message (.pyStr u) st gen fetch og).state.turn_number
        = st.turn_number + 1 ∧
      (process_user_message (.pyStr u) st gen fetch og).state.conversation_id
        = gen (st.turn_number + 1) ∧
      (process_user_message (.pyStr u) st gen fetch og).state.messages.length
        = st.messages.length + 1 := by
    intro u st hu
    obtain ⟨hm, ht, hc, _⟩ := hrr_frame (py_strip u)
      { st with
        turn_number := st.turn_number + 1
        conversation_id := gen (st.turn_number + 1)
        messages := st.messages ++ [⟨"user", py_strip u⟩] } fetch
    simp only [process_user_message, if_neg hu]
    exact ⟨ht, hc, by rw [hm]; simp⟩
  obtain ⟨ht, hc, hm⟩ := key raw s h
  refine ⟨ht, by omega, hc, hm, ?_⟩
  intro t raw2 h2 hid
  obtain ⟨_, hc2, _⟩ := key raw2 t h2
  rw [hc2, hc] at hid
  have := hgen hid
  omega

/-- Witness for C4: a concrete non-empty input, with the spec-modelled
one-to-one generator. -/
theorem turn_increment_and_id_one_to_one_witness :
    ("hello" : String) ≠ "" ∧
    ((process_user_message (.pyStr "hello") sample_state generate_conversation_id
        (.ok "r") (.ok sample_og)).state.turn_number = sample_state.turn_number + 1 ∧
     sample_state.turn_number < (process_user_message (.pyStr "hello") sample_state
        generate_conversation_id (.ok "r") (.ok sample_og)).state.turn_number ∧
     (process_user_message (.pyStr "hello") sample_state generate_conversation_id
        (.ok "r") (.ok sample_og)).state.conversation_id
        = generate_conversation_id (sample_state.turn_number + 1) ∧
     (process_user_message (.pyStr "hello") sample_state generate_conversation_id
        (.ok "r") (.ok sample_og)).state.messages.length
        = sample_state.messages.length + 1 ∧
     (∀ (t : SessionState) (raw2 : String), raw2 ≠ "" →
       (process_user_message (.pyStr raw2) t generate_conversation_id
          (.ok "r") (.ok sample_og)).state.conversation_id
         = (process_user_message (.pyStr "hello") sample_state generate_conversation_id
            (.ok "r") (.ok sample_og)).state.conversation_id →
       t.turn_number = sample_state.turn_number)) :=
  ⟨by decide,
   turn_increment_and_id_one_to_one "hello" sample_state generate_conversation_id
     (.ok "r") (.ok sample_og) (by decide) generate_conversation_id_injective⟩

/-- C8: every non-empty string input is accepted — including
whitespace-only input — and the appended user turn's content is the input
with leading and trailing whitespace stripped; the turn number increments. -/
theorem strip_and_append (raw : String) (s : SessionState) (gen : Int → String)
    (fetch : Except String String) (og : Except String PyVal) (h : raw ≠ "") :
    (process_user_message (.pyStr raw) s gen fetch og).state.messages
      = s.messages ++ [⟨"user", py_strip raw⟩] ∧
    (process_user_message (.pyStr raw) s gen fetch og).state.turn_number
      = s.turn_number + 1 := by
  obtain ⟨hm, ht, _, _⟩ := hrr_frame (py_strip raw)
    { s with
      turn_number := s.turn_number + 1
      conversation_id := gen (s.turn_number + 1)
      messages := s.messages ++ [⟨"user", py_strip raw⟩] } fetch
  simp only [process_user_message, if_neg h]
  exact ⟨hm, ht⟩

/-- Witness for C8 at a whitespace-only input made of a space and a
no-break space (U+00A0): it is non-empty, is not rejected, and the
appended turn's content is the empty string. -/
theorem strip_and_append_witness :
    (" \u00A0" : String) ≠ "" ∧ py_strip " \u00A0" = "" ∧
    ((process_user_message (.pyStr " \u00A0") sample_state generate_conversation_id
        (.ok "r") (.ok sample_og)).state.messages
      = sample_state.messages ++ [⟨"user", py_strip " \u00A0"⟩] ∧
     (process_user_message (.pyStr " \u00A0") sample_state generate_conversation_id
        (.ok "r") (.ok sample_og)).state.turn_number
      = sample_state.turn_number + 1) :=
  ⟨by decide, rfl,
   strip_and_append " \u00A0" sample_state generate_conversation_id
     (.ok "r") (.ok sample_og) (by decide)⟩

/-- The event trace of one `process_user_message` run. -/
def pum_events (raw : String) (s : SessionState) (gen : Int → String)
    (fetch : Except String String) (og : Except String PyVal) : List Event :=
  (process_user_message (.pyStr raw) s gen fetch og).events

/-- Closed form of the event trace of `process_user_message` on a
non-empty input: the user's rendered message, then the optional raw-fetch
activity, then the OmniGuard-call activity ending in the decision hand-off. -/
theorem pum_events_eq (raw : String) (s : SessionState) (gen : Int → String)
    (fetch : Except String String) (og : Except String PyVal) (h : raw ≠ "") :
    pum_events raw s gen fetch og
      = Event.userMarkdown (py_strip raw)
          :: ((if s.show_unfiltered_response then
                Event.fetchAssistant (py_strip raw) true
                  :: (match fetch with
                      | .ok _ => []
                      | .error ex => [Event.errorBox ("Error fetching raw response: " ++ ex)])
              else [])
            ++ ((match og with
                 | .ok _ => []
                 | .error ex => [Event.errorBox ("Error calling OmniGuard: " ++ ex)])
              ++ [Event.processResult (py_strip raw)
                    ("user" ++ ": " ++ py_strip raw)])) := by
  cases hsf : s.show_unfiltered_response <;>
    rcases fetch with r | ex1 <;> rcases og with g | ex2 <;>
      simp [pum_events, process_user_message, if_neg h, handle_raw_response,
        handle_omniguard_check, hsf, List.getLast?_concat]

/-- The property C2 asserts of a run's event trace: every invocation of
`fetch_assistant_response` is preceded by a decision hand-off to
`process_omniguard_result`. -/
def fetch_only_after_decision (tr : List Event) : Prop :=
  ∀ i, i < tr.length → (tr.getD i default).isFetchCall = true →
    ∃ j < i, (tr.getD j default).isDecisionResult = true

/-- C2 counterexample: with `show_unfiltered_response` enabled,
`process_user_message` invokes `fetch_assistant_response` before any
decision has been produced for the turn, refuting the claim as stated. -/
theorem fetch_before_decision_counterexample :
    ¬ fetch_only_after_decision
        (pum_events "hi" sample_state generate_conversation_id
          (.ok "raw") (.ok sample_og)) := by
  unfold fetch_only_after_decision
  decide

/-- C2 amended: `process_user_message` invokes `fetch_assistant_response`
iff `show_unfiltered_response` is set (independently of any decision), and
every such invocation happens strictly before the decision hand-off. -/
theorem fetch_iff_unfiltered_and_before_decision
    (raw : String) (s : SessionState) (gen : Int → String)
    (fetch : Except String String) (og : Except String PyVal) (h : raw ≠ "") :
    (((pum_events raw s gen fetch og).map Event.isFetchCall).contains true
        ↔ s.show_unfiltered_response = true) ∧
    (∀ i j : Nat,
      ((pum_events raw s gen fetch og).map Event.isFetchCall).getD i false = true →
      ((pum_events raw s gen fetch og).map Event.isDecisionResult).getD j false = true →
      i < j) := by
  rw [pum_events_eq raw s gen fetch og h]
  cases hsf : s.show_unfiltered_response <;>
    rcases fetch with r | ex1 <;> rcases og with g | ex2 <;>
      simp only [hsf, if_true, if_false, List.nil_append, List.cons_append,
        List.map, Event.isFetchCall, Event.isDecisionResult, Bool.true_eq_false,
        List.contains_cons, List.contains_nil] <;>
    refine ⟨by simp, ?_⟩ <;>
    · intro i j hi hj
      rcases i with _ | _ | _ | _ | _ | i <;>
        rcases j with _ | _ | _ | _ | _ | j <;>
          simp_all [List.getD]

/-- `sub` occurs as a contiguous substring of `s`. -/
def contains_str (s sub : String) : Prop :=
  ∃ l r : List Char, s.data = l ++ sub.data ++ r

/-- The property C3 asserts of a run's user-visible output: no displayed
message embeds the internal exception's error string `ex`. -/
def no_error_string_in_output (tr : List Event) (ex : String) : Prop :=
  ∀ e ∈ tr, ∀ msg : String, e = Event.errorBox msg → ¬ contains_str msg ex

/-- C3 counterexample: when `omniguard_check()` raises an exception whose
message is `"boom"`, the `st.error` banner shown to the user embeds that
internal error string, refuting the claim as stated. -/
theorem error_string_displayed_counterexample :
    ¬ no_error_string_in_output
        (handle_omniguard_check "hi" sample_state (.error "boom")).events "boom" := by
  intro hno
  have hmem : Event.errorBox ("Error calling OmniGuard: " ++ "boom")
      ∈ (handle_omniguard_check "hi" sample_state (.error "boom")).events := by
    simp [handle_omniguard_check]
  exact hno _ hmem _ rfl
    ⟨("Error calling OmniGuard: " : String).data, [], by decide⟩

/-- C3 amended: on both failure paths the conversational resolution is a
fixed neutral text independent of the exception — the fail-closed fallback
rejection for the decision request and the fixed string
`"Error: Could not fetch raw response"` for the raw fetch, never a
pass-through — but `st.error` additionally displays a banner embedding the
internal exception's error string. -/
theorem failure_paths_neutral_resolution (ui : String) (s : SessionState)
    (ex ex2 : String) (hs : s.show_unfiltered_response = true) :
    (handle_omniguard_check ui s (.error ex)).resolved = fallback_omniguard_response ∧
    rejection_text (handle_omniguard_check ui s (.error ex)).resolved
      = some "Safety system unavailable - please try again" ∧
    Event.errorBox ("Error calling OmniGuard: " ++ ex)
      ∈ (handle_omniguard_check ui s (.error ex)).events ∧
    (handle_raw_response ui s (.error ex2)).1.raw_assistant_response
      = some "Error: Could not fetch raw response" ∧
    Event.errorBox ("Error fetching raw response: " ++ ex2)
      ∈ (handle_raw_response ui s (.error ex2)).2 := by
  refine ⟨rfl, rfl, ?_, ?_, ?_⟩
  · simp [handle_omniguard_check]
  · simp [handle_raw_response, hs]
  · simp [handle_raw_response, hs]

/-- Witness for the amended C3 at a concrete state and exceptions. -/
theorem failure_paths_neutral_resolution_witness :
    sample_state.show_unfiltered_response = true ∧
    ((handle_omniguard_check "hi" sample_state (.error "boom")).resolved
        = fallback_omniguard_response ∧
     rejection_text (handle_omniguard_check "hi" sample_state (.error "boom")).resolved
        = some "Safety system unavailable - please try again" ∧
     Event.errorBox ("Error calling OmniGuard: " ++ "boom")
        ∈ (handle_omniguard_check "hi" sample_state (.error "boom")).events ∧
     (handle_raw_response "hi" sample_state (.error "oops")).1.raw_assistant_response
        = some "Error: Could not fetch raw response" ∧
     Event.errorBox ("Error fetching raw response: " ++ "oops")
        ∈ (handle_raw_response "hi" sample_state (.error "oops")).2) :=
  ⟨rfl, failure_paths_neutral_resolution "hi" sample_state "boom" "oops" rfl⟩

/-- Witness for the amended C2 at a concrete run with the unfiltered
feature enabled. -/
theorem fetch_iff_unfiltered_and_before_decision_witness :
    ("hi" : String) ≠ "" ∧
    (((pum_events "hi" sample_state generate_conversation_id
          (.ok "raw") (.ok sample_og)).map Event.isFetchCall).contains true
        ↔ sample_state.show_unfiltered_response = true) ∧
    (∀ i j : Nat,
      ((pum_events "hi" sample_state generate_conversation_id
          (.ok "raw") (.ok sample_og)).map Event.isFetchCall).getD i false = true →
      ((pum_events "hi" sample_state generate_conversation_id
          (.ok "raw") (.ok sample_og)).map Event.isDecisionResult).getD j false = true →
      i < j) :=
  ⟨by decide,
   (fetch_iff_unfiltered_and_before_decision "hi" sample_state
      generate_conversation_id (.ok "raw") (.ok sample_og) (by decide)).1,
   (fetch_iff_unfiltered_and_before_decision "hi" sample_state
      generate_conversation_id (.ok "raw") (.ok sample_og) (by decide)).2⟩
